import Mathlib

/-!
Verification development for the TUYUL-FX risk and fusion engines.

The Python modules under `core_cognitive` (risk manager, adaptive risk
calculator, risk feedback calibrator) and `core_fusion` (bias neutralizer,
Monte Carlo confidence estimator) are embedded shallowly below.  Python
floats are modelled as exact rationals (`ℚ`) where the code is pure
arithmetic, and as reals (`ℝ`) where `math.sqrt` appears.  Python's
built-in `round` (round-half-to-even) is modelled by `pyRound`.
File and clock effects are passed explicitly: the feedback calibrator
takes and returns its `confidence_weight` state, and functions that stamp
`datetime.utcnow().isoformat()` take the current time string as an
argument.
-/

namespace TuyulFx

/-- Python's `round` to an integer: round half to even (banker's rounding). -/
def pyRoundInt {α : Type} [LinearOrderedField α] [FloorRing α] (x : α) : ℤ :=
  if x - (⌊x⌋ : α) < 1/2 then ⌊x⌋
  else if 1/2 < x - (⌊x⌋ : α) then ⌊x⌋ + 1
  else if Even ⌊x⌋ then ⌊x⌋ else ⌊x⌋ + 1

/-- Python's `round(x, n)` for `n` decimal digits. -/
def pyRound {α : Type} [LinearOrderedField α] [FloorRing α] (x : α) (n : ℕ) : α :=
  (pyRoundInt (x * 10 ^ n) : α) / 10 ^ n

/-- The `_clamp` helper shared by `risk_manager.py` and
`adaptive_risk_calculator.py`: `max(minimum, min(value, maximum))`. -/
def clamp {α : Type} [LinearOrder α] (value minimum maximum : α) : α :=
  max minimum (min value maximum)

section RoundLemmas

variable {α : Type} [LinearOrderedField α] [FloorRing α]

theorem pyRoundInt_nonneg {x : α} (hx : 0 ≤ x) : 0 ≤ pyRoundInt x := by
  have hf : (0 : ℤ) ≤ ⌊x⌋ := Int.floor_nonneg.mpr hx
  unfold pyRoundInt
  split
  · exact hf
  · split
    · omega
    · split
      · exact hf
      · omega

theorem pyRoundInt_le_intCast {x : α} {z : ℤ} (hx : x ≤ (z : α)) :
    pyRoundInt x ≤ z := by
  have hf : ⌊x⌋ ≤ z := by
    calc ⌊x⌋ ≤ ⌊(z : α)⌋ := Int.floor_le_floor hx
    _ = z := Int.floor_intCast z
  unfold pyRoundInt
  split
  · exact hf
  · rename_i hlt
    push_neg at hlt
    have hne : ⌊x⌋ ≠ z := by
      intro he
      have hc : ((⌊x⌋ : ℤ) : α) = (z : α) := by rw [he]
      have hfl : (⌊x⌋ : α) ≤ x := Int.floor_le x
      nlinarith [hlt, hc, hx]
    have hstrict : ⌊x⌋ + 1 ≤ z := by omega
    split
    · exact hstrict
    · split
      · omega
      · exact hstrict

theorem pyRound_nonneg {x : α} (hx : 0 ≤ x) (n : ℕ) : 0 ≤ pyRound x n := by
  unfold pyRound
  have hnum : (0 : ℤ) ≤ pyRoundInt (x * 10 ^ n) := by
    apply pyRoundInt_nonneg
    have hp : (0 : α) ≤ 10 ^ n := by positivity
    exact mul_nonneg hx hp
  have hnum' : (0 : α) ≤ (pyRoundInt (x * 10 ^ n) : α) := by exact_mod_cast hnum
  positivity

theorem pyRound_le_of_le {x : α} {z : ℤ} {n : ℕ} (hx : x ≤ (z : α) / 10 ^ n) :
    pyRound x n ≤ (z : α) / 10 ^ n := by
  unfold pyRound
  have hpow : (0 : α) < 10 ^ n := by positivity
  have hmul : x * 10 ^ n ≤ (z : α) := by
    have h1 := mul_le_mul_of_nonneg_right hx hpow.le
    rwa [div_mul_cancel₀ _ (ne_of_gt hpow)] at h1
  have h2 : pyRoundInt (x * 10 ^ n) ≤ z := pyRoundInt_le_intCast hmul
  have h3 : ((pyRoundInt (x * 10 ^ n) : ℤ) : α) ≤ (z : α) := by exact_mod_cast h2
  gcongr

end RoundLemmas

/-! ### String helpers

Python's `str.lower` / `str.upper` and the `in` substring test, restricted to
ASCII (the only strings compared by the risk manager are mode literals and
currency-pair symbols). -/

/-- ASCII lowercase conversion of one character. -/
def asciiLower (c : Char) : Char :=
  if 'A' ≤ c ∧ c ≤ 'Z' then Char.ofNat (c.toNat + 32) else c

/-- ASCII uppercase conversion of one character. -/
def asciiUpper (c : Char) : Char :=
  if 'a' ≤ c ∧ c ≤ 'z' then Char.ofNat (c.toNat - 32) else c

/-- `s.lower()` for ASCII strings. -/
def strLower (s : String) : String := ⟨s.data.map asciiLower⟩

/-- `s.upper()` for ASCII strings. -/
def strUpper (s : String) : String := ⟨s.data.map asciiUpper⟩

/-- Python's `pat in s` substring test. -/
def containsSub (s pat : String) : Bool :=
  (List.range (s.data.length + 1)).any
    (fun i => decide (((s.data.drop i).take pat.data.length) = pat.data))

/-! ### `core_cognitive/modules/adaptive_risk_calculator.py` -/

/-- The `ModeLiteral` type: `"normal" | "reflexive" | "aggressive"`. -/
inductive Mode where
  | normal
  | reflexive
  | aggressive
  deriving DecidableEq, Repr

/-- `_MODE_MULTIPLIERS` from `adaptive_risk_calculator.py`. -/
def mode_multipliers : Mode → ℚ
  | .normal => 1
  | .reflexive => 0.9
  | .aggressive => 1.2

/-- `calculate_dynamic_risk` from `adaptive_risk_calculator.py`. -/
def calculate_dynamic_risk (confidence : ℚ) (mode : Mode) : ℚ :=
  let confidence_value := clamp confidence 0 1
  let mode_multiplier := mode_multipliers mode
  let baseline := 0.01 * (0.85 + 0.75 * confidence_value)
  let adaptive_risk := baseline * mode_multiplier
  clamp adaptive_risk 0 0.025

/-- `calculate_lot_size` from `adaptive_risk_calculator.py`; `ValueError`
becomes the `Except.error` branch. -/
def calculate_lot_size (balance entry_price stop_loss pip_value risk_fraction : ℚ) :
    Except String ℚ :=
  if balance ≤ 0 ∨ pip_value ≤ 0 then .error "Balance and pip value must be positive"
  else if entry_price ≤ 0 ∨ stop_loss ≤ 0 then .error "Entry and stop loss must be positive"
  else
    let price_distance := |entry_price - stop_loss|
    if price_distance = 0 then .ok 0
    else
      let pip_distance := price_distance * 10000
      let risk_amount := balance * clamp risk_fraction 0 1
      let per_lot_risk := pip_distance * pip_value
      if per_lot_risk = 0 then .ok 0
      else .ok (pyRound (risk_amount / per_lot_risk) 2)

/-! ### `core_cognitive/modules/risk_feedback_calibrator.py`

The calibrator's only state is `self.confidence_weight`; it is passed in and
returned explicitly.  A vault record is modelled by the two fields the
calibrator reads (`item.get("confidence")`, `item.get("drawdown")`); a missing
or non-numeric entry is `none`, matching `_safe_float`'s fallback. -/

/-- `CalibrationSummary` from `risk_feedback_calibrator.py`. -/
structure CalibrationSummary where
  new_confidence_weight : ℚ
  sample_size : ℕ
  status : String
  deriving DecidableEq, Repr

/-- The fields of a stored vault risk record that `calibrate` reads. -/
structure RiskRecord where
  confidence : Option ℚ
  drawdown : Option ℚ
  deriving DecidableEq, Repr

/-- `RiskFeedbackCalibrator.__init__` sets `self.confidence_weight = 1.0`. -/
def initial_confidence_weight : ℚ := 1

/-- `RiskFeedbackCalibrator.calibrate`.  Returns the Python return value (a
`CalibrationSummary`, or the `{"status": "no_data"}` dict modelled as its
status string) together with the updated `confidence_weight` state. -/
def calibrate (confidence_weight : ℚ) (risk_data : List RiskRecord) :
    (CalibrationSummary ⊕ String) × ℚ :=
  if risk_data = [] then (Sum.inr "no_data", confidence_weight)
  else
    let confidences := risk_data.map (fun r => r.confidence.getD 0.5)
    let drawdowns := risk_data.map (fun r => r.drawdown.getD 0)
    let sample_size := confidences.length
    let average_confidence := confidences.sum / (sample_size : ℚ)
    let average_drawdown := (drawdowns.map (fun v => |v|)).sum / (sample_size : ℚ)
    let weight0 := 1 + (average_confidence - 0.5) * 0.5
    let weight1 := if 0.10 < average_drawdown then weight0 * 0.85 else weight0
    let weight := max 0.5 (min weight1 1.5)
    (Sum.inl ⟨weight, sample_size, "updated"⟩, weight)

/-! ### `core_cognitive/risk_manager.py`

`calculate_risk`'s vault persistence and calibration file I/O are effects:
the weight produced by the calibration step enters the arithmetic only as
`confidence_weight` (`1.0` when no calibration runs), so the embedding takes
that weight as an explicit argument.  The `persist` branch only writes logs
after the assessment is fully built and does not alter the numeric fields. -/

/-- `_BASE_RISK_PERCENT` from `risk_manager.py`. -/
def base_risk_percent : ℚ := 1

/-- `_MAX_RISK_FRACTION` from `risk_manager.py`. -/
def max_risk_fraction : ℚ := 0.018

/-- `_normalise_mode` from `risk_manager.py`.  An unrecognized or empty mode
string falls through to the drawdown/confidence rules. -/
def normalise_mode (mode : Option String) (drawdown confidence : ℚ) : Mode :=
  let fallback :=
    if 0.12 ≤ drawdown then Mode.reflexive
    else if 0.93 ≤ confidence ∧ drawdown ≤ 0.05 then Mode.aggressive
    else Mode.normal
  match mode with
  | some m =>
    if m = "" then fallback
    else
      let lowered := strLower m
      if lowered = "normal" then Mode.normal
      else if lowered = "reflexive" then Mode.reflexive
      else if lowered = "aggressive" then Mode.aggressive
      else fallback
  | none => fallback

/-- `calibrate_risk` from `risk_manager.py`: the drawdown tier multiplier. -/
def calibrate_risk (drawdown : ℚ) : Except String ℚ :=
  if drawdown < 0 then .error "Drawdown cannot be negative"
  else if drawdown ≤ 0.05 then .ok 1
  else if drawdown ≤ 0.10 then .ok 0.75
  else if drawdown ≤ 0.15 then .ok 0.5
  else .ok 0

/-- `_resolve_alignment_factor` from `risk_manager.py`. -/
def resolve_alignment_factor (score : Option ℤ) : ℚ :=
  match score with
  | none => 0.5
  | some s => if s ≤ 0 then 0 else clamp ((s : ℚ) / 4) 0 1

/-- `_resolve_pip_value` from `risk_manager.py`. -/
def resolve_pip_value (pair : Option String) (pip_value : Option ℚ) : ℚ :=
  match pip_value with
  | some v => v
  | none =>
    match pair with
    | some p => if p ≠ "" ∧ containsSub (strUpper p) "JPY" = true then 9.1 else 10
    | none => 10

/-- `RiskAssessment` from `risk_manager.py` (the numeric trade profile;
the calibration/vault path metadata fields are I/O artefacts and omitted). -/
structure RiskAssessment where
  balance : ℚ
  drawdown : ℚ
  reflex_coherence : ℚ
  base_risk : ℚ
  adjusted_risk : ℚ
  risk_fraction : ℚ
  risk_amount : ℚ
  lot_size : ℚ
  mode : Mode
  confidence : ℚ
  dynamic_risk : ℚ
  alignment_score : Option ℤ
  deriving DecidableEq, Repr

/-- `drawdown_fraction = drawdown / 100 if drawdown > 1 else drawdown`
from `calculate_risk`. -/
def drawdown_fraction_of (drawdown : ℚ) : ℚ :=
  if 1 < drawdown then drawdown / 100 else drawdown

/-- `reflex_value` from `calculate_risk`: the coherence input (falling back
to `confidence or 0.0`) clamped to `[0, 1]`. -/
def reflex_value_of (reflex_coherence confidence : Option ℚ) : ℚ :=
  clamp (reflex_coherence.getD (confidence.getD 0)) 0 1

/-- `confidence_value` from `calculate_risk`. -/
def confidence_value_of (reflex_coherence confidence : Option ℚ) : ℚ :=
  clamp (confidence.getD (reflex_value_of reflex_coherence confidence)) 0 1

/-- `adjusted_fraction` from `calculate_risk`: the four-factor product
clamped to `[0, _MAX_RISK_FRACTION]`. -/
def adjusted_fraction_of
    (dynamic_fraction drawdown_multiplier confidence_weight alignment_factor : ℚ) : ℚ :=
  clamp (dynamic_fraction * drawdown_multiplier * confidence_weight * alignment_factor)
    0 max_risk_fraction

/-- `calculate_risk` from `risk_manager.py`.  `confidence_weight` is the
weight produced by the (file-backed) calibration step, `1.0` by default. -/
def calculate_risk (balance : ℚ) (drawdown : ℚ)
    (reflex_coherence : Option ℚ) (confidence : Option ℚ)
    (mode : Option String) (pair : Option String)
    (entry_price : Option ℚ) (stop_loss : Option ℚ) (pip_value : Option ℚ)
    (confidence_weight : ℚ) (alignment_score : Option ℤ) :
    Except String RiskAssessment :=
  if balance ≤ 0 then .error "Balance must be positive"
  else if reflex_coherence = none ∧ confidence = none then
    .error "Either reflex_coherence or confidence must be provided"
  else
    let drawdown_fraction := drawdown_fraction_of drawdown
    if drawdown_fraction < 0 then .error "Drawdown cannot be negative"
    else
      let reflex_value := reflex_value_of reflex_coherence confidence
      let confidence_value := confidence_value_of reflex_coherence confidence
      let mode_literal := normalise_mode mode drawdown_fraction confidence_value
      let dynamic_fraction := calculate_dynamic_risk confidence_value mode_literal
      match calibrate_risk drawdown_fraction with
      | .error e => .error e
      | .ok drawdown_multiplier =>
        let alignment_factor := resolve_alignment_factor alignment_score
        let adjusted_fraction :=
          adjusted_fraction_of dynamic_fraction drawdown_multiplier confidence_weight
            alignment_factor
        let adjusted_percent := pyRound (adjusted_fraction * 100) 2
        let dynamic_percent := pyRound (dynamic_fraction * 100) 2
        let risk_amount := pyRound (balance * adjusted_fraction) 2
        let resolved_pip_value := resolve_pip_value pair pip_value
        let lot_result : Except String ℚ :=
          match entry_price, stop_loss with
          | some e, some s =>
            calculate_lot_size balance e s resolved_pip_value adjusted_fraction
          | _, _ => .ok 0
        match lot_result with
        | .error e => .error e
        | .ok lot_size =>
          .ok {
            balance := pyRound balance 2
            drawdown := pyRound drawdown_fraction 4
            reflex_coherence := pyRound reflex_value 4
            base_risk := base_risk_percent
            adjusted_risk := adjusted_percent
            risk_fraction := pyRound adjusted_fraction 4
            risk_amount := risk_amount
            lot_size := lot_size
            mode := mode_literal
            confidence := pyRound confidence_value 4
            dynamic_risk := dynamic_percent
            alignment_score := alignment_score }

/-! ### Transfer of `pyRound` along `ℚ → ℝ`

The fusion modules call `math.sqrt`, so they are modelled over `ℝ`; these
lemmas let concrete rational evaluations be carried out in `ℚ`. -/

theorem pyRoundInt_ratCast (q : ℚ) : pyRoundInt (q : ℝ) = pyRoundInt q := by
  unfold pyRoundInt
  rw [Rat.floor_cast]
  have hsub : (q : ℝ) - ((⌊q⌋ : ℤ) : ℝ) = ((q - (⌊q⌋ : ℚ) : ℚ) : ℝ) := by
    push_cast
    ring
  have hhalf : (1/2 : ℝ) = ((1/2 : ℚ) : ℝ) := by norm_num
  rw [hsub, hhalf]
  simp only [Rat.cast_lt]

theorem pyRound_ratCast (q : ℚ) (n : ℕ) :
    pyRound (q : ℝ) n = ((pyRound q n : ℚ) : ℝ) := by
  unfold pyRound
  have hmul : (q : ℝ) * 10 ^ n = ((q * 10 ^ n : ℚ) : ℝ) := by
    push_cast
    ring
  rw [hmul, pyRoundInt_ratCast]
  push_cast
  ring

/-! ### `core_fusion/bias_neutralizer.py` -/

/-- `BiasNeutralizationResult` from `bias_neutralizer.py`. -/
structure BiasNeutralizationResult where
  neutralized_bias : ℝ
  reflective_coherence : ℝ
  fusion_confidence : ℝ
  bias_state : String
  timestamp : String

/-- `BiasNeutralizer._compute_reflective_coherence`. -/
noncomputable def compute_reflective_coherence (f1 f2 s : ℝ) : ℝ :=
  let std_dev := Real.sqrt (((f1 - f2) ^ 2 + (f2 - s) ^ 2 + (s - f1) ^ 2) / 3)
  let coherence := 1 - min (std_dev * 1.5) 1
  pyRound coherence 4

/-- `BiasNeutralizer._bias_state`. -/
noncomputable def bias_state_of (val : ℝ) : String :=
  if 0.66 ≤ val then "BULLISH"
  else if val ≤ 0.33 then "BEARISH"
  else "NEUTRAL"

/-- The exact (pre-rounding) neutralized bias computed in
`BiasNeutralizer.neutralize` steps 1–3. -/
noncomputable def neutralized_exact
    (damping_factor coherence_gain fundamental_bias fusion_bias sentiment_index
      volatility_index : ℝ) : ℝ :=
  let base_mean := (fundamental_bias + fusion_bias + sentiment_index) / 3
  let volatility_factor := max 0.1 (1 - (volatility_index - 15) * 0.03)
  let damped := base_mean * damping_factor * volatility_factor
  let coherence := compute_reflective_coherence fundamental_bias fusion_bias sentiment_index
  let reflective_coherence := pyRound (coherence * coherence_gain * 100) 2
  max 0 (min 1 (damped + reflective_coherence / 1000))

/-- `BiasNeutralizer.neutralize`.  The constructor arguments
`damping_factor` (default `0.6`) and `coherence_gain` (default `1.2`) come
first; `now` is the `datetime.utcnow().isoformat()` stamp. -/
noncomputable def neutralize
    (damping_factor coherence_gain fundamental_bias fusion_bias sentiment_index
      volatility_index : ℝ) (now : String) : BiasNeutralizationResult :=
  let coherence := compute_reflective_coherence fundamental_bias fusion_bias sentiment_index
  let reflective_coherence := pyRound (coherence * coherence_gain * 100) 2
  let neutralized_bias :=
    neutralized_exact damping_factor coherence_gain fundamental_bias fusion_bias
      sentiment_index volatility_index
  let fusion_confidence :=
    pyRound ((neutralized_bias * 0.7 + (reflective_coherence / 100) * 0.3) * 100) 2
  { neutralized_bias := pyRound neutralized_bias 4
    reflective_coherence := reflective_coherence
    fusion_confidence := fusion_confidence
    bias_state := bias_state_of neutralized_bias
    timestamp := now }

/-! ### `core_fusion/montecarlo_confidence.py`

`random.Random(seed)` yields a deterministic stream of `gauss(0, 0.08)`
draws: identical seeds give identical draws.  The embedding therefore takes
the draw sequence (one per simulation) as an explicit list `noise`, and
`datetime.utcnow().isoformat()` as the explicit `now` argument. -/

/-- `MonteCarloResult` from `montecarlo_confidence.py`. -/
structure MonteCarloResult where
  mean_confidence : ℝ
  reliability_score : ℝ
  stability_index : ℝ
  total_simulations : ℕ
  bias_mean : ℝ
  volatility_mean : ℝ
  reflective_integrity : ℝ
  timestamp : String

/-- `volatility_effect = max(0.4, 1 - (volatility_index - 15) * 0.03)`
computed in each simulation step of `MonteCarloConfidence.run`. -/
noncomputable def volatility_effect (volatility_index : ℝ) : ℝ :=
  max 0.4 (1 - (volatility_index - 15) * 0.03)

/-- One simulation sample of `MonteCarloConfidence.run`:
`normalized = max(0.0, min(1.0, base_bias + noise * volatility_effect))`. -/
noncomputable def mc_sample (base_bias volatility_index noise : ℝ) : ℝ :=
  max 0 (min 1 (base_bias + noise * volatility_effect volatility_index))

/-- `MonteCarloConfidence.run`; `noise` holds the `self.random.gauss(0, 0.08)`
draw of each of the `self.simulations` iterations. -/
noncomputable def mc_run (noise : List ℝ)
    (base_bias coherence volatility_index confidence_weight : ℝ)
    (now : String) : MonteCarloResult :=
  let samples := noise.map (mc_sample base_bias volatility_index)
  let vol_samples := noise.map (fun _ => volatility_effect volatility_index)
  let mean_conf := pyRound (samples.sum / (samples.length : ℝ)) 4
  let bias_mean := pyRound base_bias 4
  let volatility_mean := pyRound (vol_samples.sum / (vol_samples.length : ℝ)) 4
  let std_dev :=
    Real.sqrt ((samples.map (fun x => (x - mean_conf) ^ 2)).sum / (samples.length : ℝ))
  let reliability_score := pyRound (max 0 (1 - std_dev * 3.5)) 4
  let stability_index :=
    pyRound ((reliability_score * 0.6 + (coherence / 100) * 0.4) * 100) 2
  let reflective_integrity :=
    pyRound ((mean_conf * reliability_score) * confidence_weight * 100) 2
  { mean_confidence := mean_conf
    reliability_score := reliability_score
    stability_index := stability_index
    total_simulations := noise.length
    bias_mean := bias_mean
    volatility_mean := volatility_mean
    reflective_integrity := reflective_integrity
    timestamp := now }

/-! ## General lemmas -/

theorem pyRound_zero {α : Type} [LinearOrderedField α] [FloorRing α] (n : ℕ) :
    pyRound (0 : α) n = 0 := by
  norm_num [pyRound, pyRoundInt]

theorem clamp_lower_le {α : Type} [LinearOrder α] (x lo hi : α) :
    lo ≤ clamp x lo hi :=
  le_max_left _ _

theorem clamp_le_upper {α : Type} [LinearOrder α] (x lo hi : α) (h : lo ≤ hi) :
    clamp x lo hi ≤ hi :=
  max_le h (min_le_right _ _)

theorem adjusted_fraction_of_bounds (d m w f : ℚ) :
    0 ≤ adjusted_fraction_of d m w f ∧ adjusted_fraction_of d m w f ≤ max_risk_fraction := by
  unfold adjusted_fraction_of
  exact ⟨clamp_lower_le _ _ _, clamp_le_upper _ _ _ (by norm_num [max_risk_fraction])⟩

theorem pyRound_le_max_risk {x : ℚ} (hx : x ≤ max_risk_fraction) :
    pyRound x 4 ≤ max_risk_fraction := by
  have hx' : x ≤ ((180 : ℤ) : ℚ) / 10 ^ 4 := by
    calc x ≤ max_risk_fraction := hx
    _ = ((180 : ℤ) : ℚ) / 10 ^ 4 := by norm_num [max_risk_fraction]
  calc pyRound x 4 ≤ ((180 : ℤ) : ℚ) / 10 ^ 4 := pyRound_le_of_le hx'
  _ = max_risk_fraction := by norm_num [max_risk_fraction]

/-- Characterization of a normal return of `calculate_risk`: the drawdown
multiplier comes from `calibrate_risk`, and the returned `risk_fraction`,
`risk_amount` and `lot_size` are the rounded clamped four-factor product,
the balance share, and the `calculate_lot_size` result (or `0` when entry
and stop are not both given). -/
theorem calculate_risk_ok
    (balance drawdown : ℚ) (reflex_coherence confidence : Option ℚ)
    (mode pair : Option String) (entry_price stop_loss pip_value : Option ℚ)
    (confidence_weight : ℚ) (alignment_score : Option ℤ) (a : RiskAssessment)
    (h : calculate_risk balance drawdown reflex_coherence confidence mode pair
      entry_price stop_loss pip_value confidence_weight alignment_score = Except.ok a) :
    ∃ m,
      calibrate_risk (drawdown_fraction_of drawdown) = Except.ok m ∧
      a.risk_fraction = pyRound (adjusted_fraction_of
        (calculate_dynamic_risk (confidence_value_of reflex_coherence confidence)
          (normalise_mode mode (drawdown_fraction_of drawdown)
            (confidence_value_of reflex_coherence confidence)))
        m confidence_weight (resolve_alignment_factor alignment_score)) 4 ∧
      a.risk_amount = pyRound (balance * adjusted_fraction_of
        (calculate_dynamic_risk (confidence_value_of reflex_coherence confidence)
          (normalise_mode mode (drawdown_fraction_of drawdown)
            (confidence_value_of reflex_coherence confidence)))
        m confidence_weight (resolve_alignment_factor alignment_score)) 2 ∧
      (a.lot_size = 0 ∨ ∃ e s, entry_price = some e ∧ stop_loss = some s ∧
        calculate_lot_size balance e s (resolve_pip_value pair pip_value)
          (adjusted_fraction_of
            (calculate_dynamic_risk (confidence_value_of reflex_coherence confidence)
              (normalise_mode mode (drawdown_fraction_of drawdown)
                (confidence_value_of reflex_coherence confidence)))
            m confidence_weight (resolve_alignment_factor alignment_score)) =
          Except.ok a.lot_size) := by
  simp only [calculate_risk] at h
  split at h
  · exact absurd h (by simp)
  · split at h
    · exact absurd h (by simp)
    · split at h
      · exact absurd h (by simp)
      · split at h
        · exact absurd h (by simp)
        · rename_i m heq
          split at h
          · exact absurd h (by simp)
          · rename_i lot heq2
            rw [Except.ok.injEq] at h
            subst h
            refine ⟨m, heq, rfl, rfl, ?_⟩
            split at heq2
            · rename_i e s
              exact Or.inr ⟨e, s, rfl, rfl, heq2⟩
            · rw [Except.ok.injEq] at heq2
              exact Or.inl heq2.symm

theorem adjusted_fraction_of_zero_mult (d w f : ℚ) : adjusted_fraction_of d 0 w f = 0 := by
  norm_num [adjusted_fraction_of, clamp, min_def, max_def, max_risk_fraction]

theorem adjusted_fraction_of_zero_factor (d m w : ℚ) : adjusted_fraction_of d m w 0 = 0 := by
  norm_num [adjusted_fraction_of, clamp, min_def, max_def, max_risk_fraction]

theorem calculate_lot_size_ok_zero {b e s p l : ℚ}
    (h : calculate_lot_size b e s p 0 = Except.ok l) : l = 0 := by
  simp only [calculate_lot_size] at h
  split at h
  · exact absurd h (by simp)
  · split at h
    · exact absurd h (by simp)
    · split at h
      · exact (Except.ok.inj h).symm
      · split at h
        · exact (Except.ok.inj h).symm
        · have harg : b * clamp (0 : ℚ) 0 1 / (|e - s| * 10000 * p) = 0 := by
            norm_num [clamp, min_def, max_def]
          rw [harg, pyRound_zero] at h
          exact (Except.ok.inj h).symm

/-! ## Claims -/

/-- **C1.** Whenever `calculate_risk` returns normally, the returned
`risk_fraction` lies within `[0, _MAX_RISK_FRACTION]`, for all values of
confidence, mode, drawdown and calibration weight (including both maximal). -/
theorem risk_fraction_within_limits
    (balance drawdown : ℚ) (reflex_coherence confidence : Option ℚ)
    (mode pair : Option String) (entry_price stop_loss pip_value : Option ℚ)
    (confidence_weight : ℚ) (alignment_score : Option ℤ) (a : RiskAssessment)
    (h : calculate_risk balance drawdown reflex_coherence confidence mode pair
      entry_price stop_loss pip_value confidence_weight alignment_score = Except.ok a) :
    0 ≤ a.risk_fraction ∧ a.risk_fraction ≤ max_risk_fraction := by
  obtain ⟨m, -, hrf, -, -⟩ :=
    calculate_risk_ok _ _ _ _ _ _ _ _ _ _ _ _ h
  rw [hrf]
  refine ⟨pyRound_nonneg (adjusted_fraction_of_bounds _ _ _ _).1 4,
    pyRound_le_max_risk (adjusted_fraction_of_bounds _ _ _ _).2⟩

/-- Witness for C1 at a concrete call. -/
theorem risk_fraction_within_limits_witness :
    0 ≤ ((calculate_risk 1000 0 none (some 1) (some "normal") none none none none 1
        none).toOption.getD ⟨0, 0, 0, 0, 0, 0, 0, 0, Mode.normal, 0, 0, none⟩).risk_fraction ∧
    ((calculate_risk 1000 0 none (some 1) (some "normal") none none none none 1
        none).toOption.getD ⟨0, 0, 0, 0, 0, 0, 0, 0, Mode.normal, 0, 0, none⟩).risk_fraction ≤
      max_risk_fraction := by
  have ha : calculate_risk 1000 0 none (some 1) (some "normal") none none none none 1
      none = Except.ok ⟨1000, 0, 1, 1, 4/5, 1/125, 8, 0, Mode.normal, 1, 8/5, none⟩ := by
    norm_num +decide [calculate_risk, drawdown_fraction_of, reflex_value_of,
      confidence_value_of, normalise_mode, strLower, asciiLower, calculate_dynamic_risk,
      mode_multipliers, calibrate_risk, resolve_alignment_factor, adjusted_fraction_of,
      max_risk_fraction, base_risk_percent, resolve_pip_value, clamp, min_def, max_def,
      pyRound, pyRoundInt]
  have hb := risk_fraction_within_limits 1000 0 none (some 1) (some "normal") none none
    none none 1 none _ ha
  rw [ha]
  exact hb

/-- **C2.** The drawdown multiplier is the step function `1.0 / 0.75 / 0.5 / 0.0`
over the tiers `≤0.05 / ≤0.10 / ≤0.15 / beyond`, and every normal return of
`calculate_risk` with `drawdown = 0.20` has `risk_fraction = 0`, regardless of
confidence or mode. -/
theorem drawdown_tiers_and_kill_switch :
    (∀ d : ℚ, 0 ≤ d → calibrate_risk d = Except.ok
      (if d ≤ 0.05 then 1 else if d ≤ 0.10 then 0.75 else if d ≤ 0.15 then 0.5 else 0)) ∧
    (∀ (balance : ℚ) (reflex_coherence confidence : Option ℚ)
      (mode pair : Option String) (entry_price stop_loss pip_value : Option ℚ)
      (confidence_weight : ℚ) (alignment_score : Option ℤ) (a : RiskAssessment),
      calculate_risk balance 0.20 reflex_coherence confidence mode pair entry_price
        stop_loss pip_value confidence_weight alignment_score = Except.ok a →
      a.risk_fraction = 0) := by
  constructor
  · intro d hd
    unfold calibrate_risk
    rw [if_neg (not_lt.mpr hd)]
    by_cases h1 : d ≤ (0.05 : ℚ) <;> by_cases h2 : d ≤ (0.10 : ℚ) <;>
      by_cases h3 : d ≤ (0.15 : ℚ) <;> simp [h1, h2, h3]
  · intro balance rc c mode pair ep sl pv cw al a h
    obtain ⟨m, hm, hrf, -, -⟩ :=
      calculate_risk_ok _ _ _ _ _ _ _ _ _ _ _ _ h
    have h2 : calibrate_risk (drawdown_fraction_of 0.20) = Except.ok 0 := by
      norm_num [calibrate_risk, drawdown_fraction_of]
    rw [h2] at hm
    have hm0 : m = 0 := (Except.ok.inj hm).symm
    subst hm0
    rw [hrf, adjusted_fraction_of_zero_mult, pyRound_zero]

/-- Witness for C2: the `0.07` tier and a concrete kill-switch call. -/
theorem drawdown_tiers_and_kill_switch_witness :
    calibrate_risk (7/100) = Except.ok 0.75 ∧
    ((calculate_risk 1000 0.20 none (some 1) none none none none none 1
        (some 4)).toOption.getD
        ⟨0, 0, 0, 0, 0, 0, 0, 0, Mode.normal, 0, 0, none⟩).risk_fraction = 0 := by
  constructor
  · have h := drawdown_tiers_and_kill_switch.1 (7/100) (by norm_num)
    rw [h]
    norm_num
  · have ha : calculate_risk 1000 0.20 none (some 1) none none none none none 1
        (some 4) = Except.ok ⟨1000, 1/5, 1, 1, 0, 0, 0, 0, Mode.reflexive, 1, 36/25,
          some 4⟩ := by
      norm_num +decide [calculate_risk, drawdown_fraction_of, reflex_value_of,
        confidence_value_of, normalise_mode, strLower, asciiLower, calculate_dynamic_risk,
        mode_multipliers, calibrate_risk, resolve_alignment_factor, adjusted_fraction_of,
        max_risk_fraction, base_risk_percent, resolve_pip_value, clamp, min_def, max_def,
        pyRound, pyRoundInt]
    have hz := drawdown_tiers_and_kill_switch.2 1000 none (some 1) none none none none
      none 1 (some 4) _ ha
    rw [ha]
    exact hz

/-- **C4 counterexample.** At a concrete call (`alignment_score` omitted) the
returned `risk_fraction` is `0.008`, while the claimed three-factor product
`clamp(dynamic·drawdown_mult·calibration_weight, 0, MAX)` is `0.016`. -/
theorem risk_fraction_three_factor_counterexample :
    (calculate_risk 1000 0 none (some 1) (some "normal") none none none none 1
        none).toOption.map RiskAssessment.risk_fraction = some (1/125) ∧
    clamp (calculate_dynamic_risk 1 Mode.normal * 1 * 1) 0 max_risk_fraction = 2/125 ∧
    (1/125 : ℚ) ≠ 2/125 := by
  have ha : calculate_risk 1000 0 none (some 1) (some "normal") none none none none 1
      none = Except.ok ⟨1000, 0, 1, 1, 4/5, 1/125, 8, 0, Mode.normal, 1, 8/5, none⟩ := by
    norm_num +decide [calculate_risk, drawdown_fraction_of, reflex_value_of,
      confidence_value_of, normalise_mode, strLower, asciiLower, calculate_dynamic_risk,
      mode_multipliers, calibrate_risk, resolve_alignment_factor, adjusted_fraction_of,
      max_risk_fraction, base_risk_percent, resolve_pip_value, clamp, min_def, max_def,
      pyRound, pyRoundInt]
  refine ⟨by rw [ha]; rfl, ?_, by norm_num⟩
  norm_num [clamp, calculate_dynamic_risk, mode_multipliers, max_risk_fraction,
    min_def, max_def]

/-- **C4 amended.** The returned `risk_fraction` is the four-factor product
`dynamic_fraction · drawdown_multiplier · confidence_weight · alignment_factor`,
clamped to `[0, MAX_RISK_FRACTION]` and rounded to 4 decimal places. -/
theorem risk_fraction_four_factor_product
    (balance drawdown : ℚ) (reflex_coherence confidence : Option ℚ)
    (mode pair : Option String) (entry_price stop_loss pip_value : Option ℚ)
    (confidence_weight : ℚ) (alignment_score : Option ℤ) (a : RiskAssessment)
    (h : calculate_risk balance drawdown reflex_coherence confidence mode pair
      entry_price stop_loss pip_value confidence_weight alignment_score = Except.ok a) :
    ∃ m, calibrate_risk (drawdown_fraction_of drawdown) = Except.ok m ∧
      a.risk_fraction = pyRound (adjusted_fraction_of
        (calculate_dynamic_risk (confidence_value_of reflex_coherence confidence)
          (normalise_mode mode (drawdown_fraction_of drawdown)
            (confidence_value_of reflex_coherence confidence)))
        m confidence_weight (resolve_alignment_factor alignment_score)) 4 := by
  obtain ⟨m, hm, hrf, -, -⟩ :=
    calculate_risk_ok _ _ _ _ _ _ _ _ _ _ _ _ h
  exact ⟨m, hm, hrf⟩

/-- Witness for the amended C4 at a concrete call. -/
theorem risk_fraction_four_factor_product_witness :
    ((calculate_risk 1000 0 none (some 1) (some "normal") none none none none 1
        none).toOption.getD ⟨0, 0, 0, 0, 0, 0, 0, 0, Mode.normal, 0, 0, none⟩).risk_fraction =
      pyRound (adjusted_fraction_of (calculate_dynamic_risk 1 Mode.normal) 1 1 (1/2)) 4 := by
  have ha : calculate_risk 1000 0 none (some 1) (some "normal") none none none none 1
      none = Except.ok ⟨1000, 0, 1, 1, 4/5, 1/125, 8, 0, Mode.normal, 1, 8/5, none⟩ := by
    norm_num +decide [calculate_risk, drawdown_fraction_of, reflex_value_of,
      confidence_value_of, normalise_mode, strLower, asciiLower, calculate_dynamic_risk,
      mode_multipliers, calibrate_risk, resolve_alignment_factor, adjusted_fraction_of,
      max_risk_fraction, base_risk_percent, resolve_pip_value, clamp, min_def, max_def,
      pyRound, pyRoundInt]
  obtain ⟨m, hm, hrf⟩ := risk_fraction_four_factor_product 1000 0 none (some 1)
    (some "normal") none none none none 1 none _ ha
  have h1 : calibrate_risk (drawdown_fraction_of 0) = Except.ok 1 := by
    norm_num [calibrate_risk, drawdown_fraction_of]
  rw [h1] at hm
  have hm1 : m = 1 := (Except.ok.inj hm).symm
  subst hm1
  rw [ha]
  refine hrf.trans ?_
  congr 1
  norm_num +decide [confidence_value_of, reflex_value_of, clamp, min_def, max_def,
    normalise_mode, strLower, asciiLower, drawdown_fraction_of, resolve_alignment_factor]

/-- **C6.** `calculate_lot_size` rejects exactly the inputs with non-positive
balance, pip value, entry price or stop loss, and a valid zero-distance call
returns lot size `0` without error. -/
theorem lot_size_validation :
    (∀ balance entry_price stop_loss pip_value risk_fraction : ℚ,
      (∃ msg, calculate_lot_size balance entry_price stop_loss pip_value risk_fraction =
        Except.error msg) ↔
      balance ≤ 0 ∨ pip_value ≤ 0 ∨ entry_price ≤ 0 ∨ stop_loss ≤ 0) ∧
    (∀ balance price pip_value risk_fraction : ℚ,
      0 < balance → 0 < pip_value → 0 < price →
      calculate_lot_size balance price price pip_value risk_fraction = Except.ok 0) := by
  constructor
  · intro b e s p r
    simp only [calculate_lot_size]
    split
    · rename_i h1
      constructor
      · intro _
        tauto
      · intro _
        exact ⟨_, rfl⟩
    · split
      · rename_i h1 h2
        constructor
        · intro _
          tauto
        · intro _
          exact ⟨_, rfl⟩
      · rename_i h1 h2
        push_neg at h1 h2
        constructor
        · rintro ⟨msg, hmsg⟩
          split at hmsg
          · exact absurd hmsg (by simp)
          · split at hmsg
            · exact absurd hmsg (by simp)
            · exact absurd hmsg (by simp)
        · intro hcon
          exfalso
          rcases hcon with h | h | h | h
          · exact absurd h (not_le.mpr h1.1)
          · exact absurd h (not_le.mpr h1.2)
          · exact absurd h (not_le.mpr h2.1)
          · exact absurd h (not_le.mpr h2.2)
  · intro b e p r hb hp he
    simp only [calculate_lot_size]
    rw [if_neg (by push_neg; exact ⟨hb, hp⟩), if_neg (by push_neg; exact ⟨he, he⟩),
      if_pos (by simp)]

/-- Witness for C6: a valid zero-distance call. -/
theorem lot_size_validation_witness :
    calculate_lot_size 1000 (11/10) (11/10) 10 (1/100) = Except.ok 0 :=
  lot_size_validation.2 1000 (11/10) 10 (1/100) (by norm_num) (by norm_num) (by norm_num)

/-- **C9.** Calibrating on an empty history reports the no-data status and
leaves the confidence weight unchanged; the cold-start weight is `1.0`. -/
theorem calibrate_empty_no_data :
    (∀ w : ℚ, calibrate w [] = (Sum.inr "no_data", w)) ∧
    initial_confidence_weight = 1 :=
  ⟨fun _ => rfl, rfl⟩

/-- **C10.** A missing alignment score contributes the factor `0.5`; a
non-positive one zeroes `risk_fraction`, `risk_amount` and `lot_size` on every
normal return, even at maximal confidence and zero drawdown. -/
theorem alignment_gating :
    resolve_alignment_factor none = 1/2 ∧
    (∀ s : ℤ, s ≤ 0 → resolve_alignment_factor (some s) = 0) ∧
    (∀ (balance drawdown : ℚ) (reflex_coherence confidence : Option ℚ)
      (mode pair : Option String) (entry_price stop_loss pip_value : Option ℚ)
      (confidence_weight : ℚ) (s : ℤ) (a : RiskAssessment), s ≤ 0 →
      calculate_risk balance drawdown reflex_coherence confidence mode pair entry_price
        stop_loss pip_value confidence_weight (some s) = Except.ok a →
      a.risk_fraction = 0 ∧ a.risk_amount = 0 ∧ a.lot_size = 0) := by
  refine ⟨by norm_num [resolve_alignment_factor], ?_, ?_⟩
  · intro s hs
    simp [resolve_alignment_factor, if_pos hs]
  · intro balance dd rc c mode pair ep sl pv cw s a hs h
    obtain ⟨m, hm, hrf, hra, hlot⟩ :=
      calculate_risk_ok _ _ _ _ _ _ _ _ _ _ _ _ h
    have haf : resolve_alignment_factor (some s) = 0 := by
      simp [resolve_alignment_factor, if_pos hs]
    rw [haf, adjusted_fraction_of_zero_factor] at hrf hra hlot
    refine ⟨by rw [hrf, pyRound_zero], by rw [hra, mul_zero, pyRound_zero], ?_⟩
    rcases hlot with h0 | ⟨e, s', -, -, hcl⟩
    · exact h0
    · exact calculate_lot_size_ok_zero hcl

/-- Witness for C10 at a concrete call with entry and stop prices. -/
theorem alignment_gating_witness :
    resolve_alignment_factor none = 1/2 ∧
    ((calculate_risk 1000 0 none (some 1) none (some "EURUSD") (some (11/10))
        (some (21/20)) none 1 (some (-1))).toOption.getD
        ⟨0, 0, 0, 0, 0, 0, 0, 0, Mode.normal, 0, 0, none⟩).risk_fraction = 0 ∧
    ((calculate_risk 1000 0 none (some 1) none (some "EURUSD") (some (11/10))
        (some (21/20)) none 1 (some (-1))).toOption.getD
        ⟨0, 0, 0, 0, 0, 0, 0, 0, Mode.normal, 0, 0, none⟩).lot_size = 0 := by
  have ha : calculate_risk 1000 0 none (some 1) none (some "EURUSD") (some (11/10))
      (some (21/20)) none 1 (some (-1)) = Except.ok ⟨1000, 0, 1, 1, 0, 0, 0, 0,
        Mode.aggressive, 1, 48/25, some (-1)⟩ := by
    norm_num +decide [calculate_risk, drawdown_fraction_of, reflex_value_of,
      confidence_value_of, normalise_mode, strLower, asciiLower, calculate_dynamic_risk,
      mode_multipliers, calibrate_risk, resolve_alignment_factor, adjusted_fraction_of,
      max_risk_fraction, base_risk_percent, resolve_pip_value, calculate_lot_size,
      strUpper, asciiUpper, containsSub, clamp, min_def, max_def, pyRound, pyRoundInt]
  have hz := alignment_gating.2.2 1000 0 none (some 1) none (some "EURUSD")
    (some (11/10)) (some (21/20)) none 1 (-1) _ (by norm_num) ha
  refine ⟨alignment_gating.1, ?_, ?_⟩
  · rw [ha]
    exact hz.1
  · rw [ha]
    exact hz.2.2

theorem pyRound_le_one {α : Type} [LinearOrderedField α] [FloorRing α] {x : α}
    (hx : x ≤ 1) (n : ℕ) : pyRound x n ≤ 1 := by
  have h10 : (0 : α) < 10 ^ n := by positivity
  have hx' : x ≤ ((10 ^ n : ℤ) : α) / 10 ^ n := by
    push_cast
    rw [div_self (ne_of_gt h10)]
    exact hx
  calc pyRound x n ≤ ((10 ^ n : ℤ) : α) / 10 ^ n := pyRound_le_of_le hx'
  _ = 1 := by
    push_cast
    rw [div_self (ne_of_gt h10)]

/-- Evaluation of `pyRound` over `ℝ` at a rational point via the `ℚ` model. -/
theorem pyRound_real_eval {x : ℝ} {q r : ℚ} {n : ℕ} (hx : x = (q : ℝ))
    (hq : pyRound q n = r) : pyRound x n = (r : ℝ) := by
  rw [hx, pyRound_ratCast, hq]

theorem compute_reflective_coherence_diag (x : ℝ) :
    compute_reflective_coherence x x x = 1 := by
  simp only [compute_reflective_coherence]
  have h1 : (((x - x) ^ 2 + (x - x) ^ 2 + (x - x) ^ 2) / 3 : ℝ) = 0 := by
    norm_num
  rw [h1, Real.sqrt_zero]
  have h2 : (1 : ℝ) - min (0 * 1.5) 1 = ((1 : ℚ) : ℝ) := by
    norm_num [min_def]
  rw [pyRound_real_eval h2
    (show pyRound (1 : ℚ) 4 = 1 by norm_num +decide [pyRound, pyRoundInt])]
  norm_num

theorem pyRound_onetwenty : pyRound ((1 : ℝ) * 1.2 * 100) 2 = 120 := by
  rw [pyRound_real_eval (show (1 : ℝ) * 1.2 * 100 = ((120 : ℚ) : ℝ) by norm_num)
    (show pyRound (120 : ℚ) 2 = 120 by norm_num +decide [pyRound, pyRoundInt])]
  norm_num

theorem neutralized_exact_ones :
    neutralized_exact 0.6 1.2 1 1 1 17 = 0.684 := by
  simp only [neutralized_exact, compute_reflective_coherence_diag, pyRound_onetwenty]
  have hvf : max (0.1 : ℝ) (1 - ((17 : ℝ) - 15) * 0.03) = 0.94 := by
    norm_num [max_def]
  rw [hvf]
  norm_num [min_def, max_def]

theorem neutralized_exact_ninetenths :
    neutralized_exact 0.6 1.2 0.9 0.9 0.9 17 = 0.6276 := by
  simp only [neutralized_exact, compute_reflective_coherence_diag, pyRound_onetwenty]
  have hvf : max (0.1 : ℝ) (1 - ((17 : ℝ) - 15) * 0.03) = 0.94 := by
    norm_num [max_def]
  rw [hvf]
  norm_num [min_def, max_def]

/-- **C5 counterexample.** At `fundamental = fusion = sentiment = 1` (default
constructor arguments, VIX `17`) the returned `reflective_coherence` is `120`,
outside the claimed range `[50, 96]`. -/
theorem reflective_coherence_range_counterexample :
    (neutralize 0.6 1.2 1 1 1 17 "t").reflective_coherence = 120 ∧
    ¬ (neutralize 0.6 1.2 1 1 1 17 "t").reflective_coherence ≤ 96 := by
  have h : (neutralize 0.6 1.2 1 1 1 17 "t").reflective_coherence = 120 := by
    simp only [neutralize, compute_reflective_coherence_diag, pyRound_onetwenty]
  exact ⟨h, by rw [h]; norm_num⟩

/-- **C5 amended.** For all real inputs, `neutralize` (at the default damping
`0.6` and coherence gain `1.2`) returns `neutralized_bias ∈ [0, 1]` and
`reflective_coherence ∈ [0, 120]`; the coherence is the rounded
`(1 − min(1.5·σ, 1))·gain·100` for the three-way deviation `σ`, not the
claimed clamp formula. -/
theorem neutralize_bounds (f1 f2 s vol : ℝ) (now : String) :
    0 ≤ (neutralize 0.6 1.2 f1 f2 s vol now).neutralized_bias ∧
    (neutralize 0.6 1.2 f1 f2 s vol now).neutralized_bias ≤ 1 ∧
    0 ≤ (neutralize 0.6 1.2 f1 f2 s vol now).reflective_coherence ∧
    (neutralize 0.6 1.2 f1 f2 s vol now).reflective_coherence ≤ 120 := by
  simp only [neutralize]
  have hne0 : 0 ≤ neutralized_exact 0.6 1.2 f1 f2 s vol := le_max_left _ _
  have hne1 : neutralized_exact 0.6 1.2 f1 f2 s vol ≤ 1 := by
    simp only [neutralized_exact]
    exact max_le zero_le_one (min_le_left _ _)
  have hmin0 : 0 ≤ min (Real.sqrt (((f1 - f2) ^ 2 + (f2 - s) ^ 2 + (s - f1) ^ 2) / 3)
      * 1.5) 1 :=
    le_min (mul_nonneg (Real.sqrt_nonneg _) (by norm_num)) zero_le_one
  have hmin1 : min (Real.sqrt (((f1 - f2) ^ 2 + (f2 - s) ^ 2 + (s - f1) ^ 2) / 3)
      * 1.5) 1 ≤ 1 := min_le_right _ _
  have hcoh0 : 0 ≤ compute_reflective_coherence f1 f2 s := by
    simp only [compute_reflective_coherence]
    exact pyRound_nonneg (by linarith) 4
  have hcoh1 : compute_reflective_coherence f1 f2 s ≤ 1 := by
    simp only [compute_reflective_coherence]
    exact pyRound_le_one (by linarith) 4
  refine ⟨pyRound_nonneg hne0 4, pyRound_le_one hne1 4, ?_, ?_⟩
  · exact pyRound_nonneg (by nlinarith) 2
  · have harg : compute_reflective_coherence f1 f2 s * 1.2 * 100 ≤
        ((12000 : ℤ) : ℝ) / 10 ^ 2 := by
      push_cast
      nlinarith
    calc pyRound (compute_reflective_coherence f1 f2 s * 1.2 * 100) 2 ≤
        ((12000 : ℤ) : ℝ) / 10 ^ 2 := pyRound_le_of_le harg
    _ = 120 := by norm_num

/-- **C8 counterexample.** A neutralized bias of `0.6276 ≥ 0.62` is classified
`NEUTRAL`, not `BULLISH`: the code's bullish threshold is `0.66`, not `0.62`. -/
theorem bias_state_threshold_counterexample :
    0.62 ≤ (neutralize 0.6 1.2 0.9 0.9 0.9 17 "t").neutralized_bias ∧
    (neutralize 0.6 1.2 0.9 0.9 0.9 17 "t").bias_state = "NEUTRAL" := by
  constructor
  · have h : (neutralize 0.6 1.2 0.9 0.9 0.9 17 "t").neutralized_bias =
        pyRound (neutralized_exact 0.6 1.2 0.9 0.9 0.9 17) 4 := rfl
    rw [h, neutralized_exact_ninetenths,
      pyRound_real_eval (show (0.6276 : ℝ) = ((0.6276 : ℚ) : ℝ) by norm_num)
        (show pyRound (0.6276 : ℚ) 4 = 0.6276 by norm_num +decide [pyRound, pyRoundInt])]
    norm_num
  · have h : (neutralize 0.6 1.2 0.9 0.9 0.9 17 "t").bias_state =
        bias_state_of (neutralized_exact 0.6 1.2 0.9 0.9 0.9 17) := rfl
    rw [h, neutralized_exact_ninetenths]
    norm_num [bias_state_of]

/-- **C8 amended.** The state returned by `neutralize` classifies the
(pre-rounding) neutralized bias with thresholds `0.66` and `0.33`:
`BULLISH` at `≥ 0.66`, `BEARISH` at `≤ 0.33`, `NEUTRAL` strictly between. -/
theorem bias_state_thresholds
    (d g f1 f2 s vol : ℝ) (now : String) :
    (0.66 ≤ neutralized_exact d g f1 f2 s vol →
      (neutralize d g f1 f2 s vol now).bias_state = "BULLISH") ∧
    (neutralized_exact d g f1 f2 s vol ≤ 0.33 →
      (neutralize d g f1 f2 s vol now).bias_state = "BEARISH") ∧
    (0.33 < neutralized_exact d g f1 f2 s vol →
      neutralized_exact d g f1 f2 s vol < 0.66 →
      (neutralize d g f1 f2 s vol now).bias_state = "NEUTRAL") := by
  have hb : (neutralize d g f1 f2 s vol now).bias_state =
      bias_state_of (neutralized_exact d g f1 f2 s vol) := rfl
  refine ⟨fun h => ?_, fun h => ?_, fun h1 h2 => ?_⟩
  · rw [hb, bias_state_of, if_pos h]
  · rw [hb, bias_state_of, if_neg (by linarith), if_pos h]
  · rw [hb, bias_state_of, if_neg (by linarith), if_neg (by linarith)]

/-- Witness for the amended C8 at a concrete bullish input. -/
theorem bias_state_thresholds_witness :
    (neutralize 0.6 1.2 1 1 1 17 "t").bias_state = "BULLISH" :=
  (bias_state_thresholds 0.6 1.2 1 1 1 17 "t").1
    (by rw [neutralized_exact_ones]; norm_num)

/-- **C3 counterexample.** With the same noise stream (same seed, same
inputs), two invocations at different clock times return different
`MonteCarloResult` values: the `timestamp` field differs. -/
theorem mc_run_timestamp_counterexample :
    mc_run [0.1] 0.6 80 0.3 1 "2026-01-02T00:00:00" ≠
    mc_run [0.1] 0.6 80 0.3 1 "2026-01-02T00:00:01" := by
  intro h
  have ht := congrArg MonteCarloResult.timestamp h
  exact absurd ht (by decide)

/-- **C3 amended.** For a fixed noise stream (determined by the seed) and
fixed inputs, every field of the result except `timestamp` is identical
across invocations. -/
theorem mc_run_deterministic (noise : List ℝ) (b c v w : ℝ) (t1 t2 : String) :
    (mc_run noise b c v w t1).mean_confidence = (mc_run noise b c v w t2).mean_confidence ∧
    (mc_run noise b c v w t1).reliability_score =
      (mc_run noise b c v w t2).reliability_score ∧
    (mc_run noise b c v w t1).stability_index = (mc_run noise b c v w t2).stability_index ∧
    (mc_run noise b c v w t1).total_simulations =
      (mc_run noise b c v w t2).total_simulations ∧
    (mc_run noise b c v w t1).bias_mean = (mc_run noise b c v w t2).bias_mean ∧
    (mc_run noise b c v w t1).volatility_mean =
      (mc_run noise b c v w t2).volatility_mean ∧
    (mc_run noise b c v w t1).reflective_integrity =
      (mc_run noise b c v w t2).reflective_integrity :=
  ⟨rfl, rfl, rfl, rfl, rfl, rfl, rfl⟩

/-- **C7 counterexample.** Raising the volatility index from `15` to `40`
shrinks the noise multiplier, so the sample dispersion narrows and the
returned `reliability_score` rises from `0` to `0.3`. -/
theorem mc_reliability_volatility_counterexample :
    (15 : ℝ) < 40 ∧
    (mc_run [0.5, -0.5] 0.5 80 15 1 "t").reliability_score <
      (mc_run [0.5, -0.5] 0.5 80 40 1 "t").reliability_score := by
  refine ⟨by norm_num, ?_⟩
  have h15 : (mc_run [0.5, -0.5] 0.5 80 15 1 "t").reliability_score = 0 := by
    have hve : volatility_effect (15 : ℝ) = 1 := by
      simp only [volatility_effect]
      norm_num [max_def]
    have hs1 : mc_sample 0.5 15 0.5 = 1 := by
      simp only [mc_sample, hve]
      norm_num [min_def, max_def]
    have hs2 : mc_sample 0.5 15 (-0.5) = 0 := by
      simp only [mc_sample, hve]
      norm_num [min_def, max_def]
    simp only [mc_run, List.map_cons, List.map_nil, hs1, hs2, List.sum_cons, List.sum_nil,
      List.length_cons, List.length_nil]
    norm_num
    rw [pyRound_real_eval (show ((1 : ℝ)/2) = ((1/2 : ℚ) : ℝ) by norm_num)
      (show pyRound (1/2 : ℚ) 4 = 1/2 by norm_num +decide [pyRound, pyRoundInt])]
    norm_num
    have hss : Real.sqrt 2 * Real.sqrt 2 = 2 := Real.mul_self_sqrt (by norm_num)
    have h2 : (Real.sqrt 2)⁻¹ / Real.sqrt 2 = 1/2 := by
      rw [div_eq_mul_inv, ← mul_inv, hss]
      norm_num
    rw [h2, show ((0 : ℝ) ⊔ (1 - 1/2 * (7/2))) = 0 by norm_num [max_def]]
    exact pyRound_zero 4
  have h40 : (mc_run [0.5, -0.5] 0.5 80 40 1 "t").reliability_score = 3/10 := by
    have hve : volatility_effect (40 : ℝ) = 0.4 := by
      simp only [volatility_effect]
      norm_num [max_def]
    have hs1 : mc_sample 0.5 40 0.5 = 0.7 := by
      simp only [mc_sample, hve]
      norm_num [min_def, max_def]
    have hs2 : mc_sample 0.5 40 (-0.5) = 0.3 := by
      simp only [mc_sample, hve]
      norm_num [min_def, max_def]
    simp only [mc_run, List.map_cons, List.map_nil, hs1, hs2, List.sum_cons, List.sum_nil,
      List.length_cons, List.length_nil]
    norm_num
    rw [pyRound_real_eval (show ((1 : ℝ)/2) = ((1/2 : ℚ) : ℝ) by norm_num)
      (show pyRound (1/2 : ℚ) 4 = 1/2 by norm_num +decide [pyRound, pyRoundInt])]
    norm_num
    have h25 : Real.sqrt 25 = 5 := by
      rw [show (25 : ℝ) = 5 ^ 2 by norm_num, Real.sqrt_sq (by norm_num)]
    have hne : Real.sqrt 2 ≠ 0 := by positivity
    have h2 : Real.sqrt 2 / Real.sqrt 25 / Real.sqrt 2 = 1/5 := by
      rw [h25, div_div, mul_comm, ← div_div, div_self hne]
    rw [h2, pyRound_real_eval
      (show ((0 : ℝ) ⊔ (1 - 1/5 * (7/2))) = ((3/10 : ℚ) : ℝ) by norm_num [max_def])
      (show pyRound (3/10 : ℚ) 4 = 3/10 by norm_num +decide [pyRound, pyRoundInt])]
    norm_num
  rw [h15, h40]
  norm_num

/-- **C7 amended.** The volatility index enters `run` only through the noise
multiplier `volatility_effect = max(0.4, 1 − (v − 15)·0.03)` (the Gaussian σ is
fixed at `0.08`): raising the volatility never increases this multiplier, and
never widens any individual sample's deviation from the base bias. -/
theorem volatility_attenuates_noise (v1 v2 b n : ℝ) (hb0 : 0 ≤ b) (hb1 : b ≤ 1)
    (h : v1 ≤ v2) :
    volatility_effect v2 ≤ volatility_effect v1 ∧
    |mc_sample b v2 n - b| ≤ |mc_sample b v1 n - b| := by
  have he2pos : (0 : ℝ) ≤ volatility_effect v2 :=
    le_trans (by norm_num) (le_max_left _ _)
  have hmono : volatility_effect v2 ≤ volatility_effect v1 := by
    unfold volatility_effect
    exact max_le_max le_rfl (by nlinarith)
  have he1pos : (0 : ℝ) ≤ volatility_effect v1 := le_trans he2pos hmono
  refine ⟨hmono, ?_⟩
  rcases le_or_lt 0 n with hn | hn
  · have hprod : n * volatility_effect v2 ≤ n * volatility_effect v1 :=
      mul_le_mul_of_nonneg_left hmono hn
    have hge2 : b ≤ mc_sample b v2 n := by
      unfold mc_sample
      have h1 : b ≤ b + n * volatility_effect v2 := by nlinarith
      exact le_trans (le_min hb1 h1) (le_max_right _ _)
    have hge1 : b ≤ mc_sample b v1 n := by
      unfold mc_sample
      have h1 : b ≤ b + n * volatility_effect v1 := by nlinarith
      exact le_trans (le_min hb1 h1) (le_max_right _ _)
    have hle : mc_sample b v2 n ≤ mc_sample b v1 n := by
      unfold mc_sample
      exact max_le_max le_rfl (min_le_min le_rfl (by linarith))
    rw [abs_of_nonneg (sub_nonneg.mpr hge2), abs_of_nonneg (sub_nonneg.mpr hge1)]
    linarith
  · have hprod : n * volatility_effect v1 ≤ n * volatility_effect v2 :=
      mul_le_mul_of_nonpos_left hmono hn.le
    have hle2 : mc_sample b v2 n ≤ b := by
      unfold mc_sample
      have h1 : b + n * volatility_effect v2 ≤ b := by nlinarith
      exact max_le hb0 (le_trans (min_le_right _ _) h1)
    have hle1 : mc_sample b v1 n ≤ b := by
      unfold mc_sample
      have h1 : b + n * volatility_effect v1 ≤ b := by nlinarith
      exact max_le hb0 (le_trans (min_le_right _ _) h1)
    have hmono2 : mc_sample b v1 n ≤ mc_sample b v2 n := by
      unfold mc_sample
      exact max_le_max le_rfl (min_le_min le_rfl (by linarith))
    rw [abs_of_nonpos (sub_nonpos.mpr hle2), abs_of_nonpos (sub_nonpos.mpr hle1)]
    linarith

/-- Witness for the amended C7 at concrete volatilities `15 ≤ 40`. -/
theorem volatility_attenuates_noise_witness :
    volatility_effect 40 ≤ volatility_effect 15 ∧
    |mc_sample (1/2) 40 1 - 1/2| ≤ |mc_sample (1/2) 15 1 - 1/2| :=
  volatility_attenuates_noise 15 40 (1/2) 1 (by norm_num) (by norm_num) (by norm_num)

end TuyulFx
